/-
Verification of the tailoring/garment-commerce backend against its
natural-language specification.

The route handlers and data-access façade are shallowly embedded as pure
Lean functions.  Database tables are lists of row structures threaded
explicitly through the handlers; JavaScript truthiness on request fields
is made explicit (absent/null is `Option.none`, empty string and zero are
handled where the source tests truthiness); fallible steps return
`Except`/status codes.  SQL templates are not part of the source excerpt,
so row-level semantics of the façade operations are modelled from the
specification where noted.
-/
import Mathlib

namespace FitFormal

/-! ## /my-orders: role-based order merging (C1, C2)

Source: the `GET /my-orders` route handler.  The two order queries
(`GetOrdersByTailorId`, `GetOrdersByShopId`) are abstracted as the lists
they return; the handler's control flow, the seen-set merge and the
second deduplication pass are embedded directly. -/

/-- An order row as returned by `GetOrdersByTailorId` / `GetOrdersByShopId`:
the `orderId` plus the remaining selected columns abstracted as a payload,
so that rows with equal ids from the two sources stay distinguishable. -/
structure OrderRow where
  orderId : Nat
  payload : String
deriving DecidableEq

/-- The database fetches a run of the /my-orders handler performs. -/
inductive Fetch where
  | userRolesFetch
  | businessFetch
  | tailorOrdersFetch
  | sellerOrdersFetch
  | orderItemsFetch (orderId : Nat)
deriving DecidableEq

/-- One pass of deduplication by `orderId` against a set of already-seen
ids, mirroring both seen-set loops in the handler (`orderIds` for the
merge, `seenOrderIds` for the second pass): an order is kept only if its
id has not been seen, and then its id is added to the set. -/
def dedupAux (seen : List Nat) : List OrderRow → List OrderRow
  | [] => []
  | o :: rest =>
    if o.orderId ∈ seen then dedupAux seen rest
    else o :: dedupAux (o.orderId :: seen) rest

/-- The merge for users that are both Tailor and Seller: the seen set is
initialised with all tailor-sourced ids, then seller-sourced orders are
appended only when their id is unseen. -/
def mergeOrders (tailorOrders sellerOrders : List OrderRow) : List OrderRow :=
  tailorOrders ++ dedupAux (tailorOrders.map (fun o => o.orderId)) sellerOrders

/-- The second, defensive deduplication pass (`uniqueOrders`). -/
def dedupByOrderId (orders : List OrderRow) : List OrderRow :=
  dedupAux [] orders

/-- Response of the /my-orders handler, plus the trace of fetches made. -/
structure MyOrdersResult where
  status : Nat
  success : Bool
  orders : List OrderRow
  fetches : List Fetch
deriving DecidableEq

/-- The `GET /my-orders` handler.  `roles` is what `GetUserRoles` returns
(role names), `business` the `businessId` of `GetBusinessByUserId` (`none`
when no row; the source also treats a falsy `businessId` as missing),
`tailorOrders` / `sellerOrders` what the two order queries would return. -/
def myOrdersHandler (roles : List String) (business : Option Nat)
    (tailorOrders sellerOrders : List OrderRow) : MyOrdersResult :=
  if roles.isEmpty then
    { status := 403, success := false, orders := [], fetches := [.userRolesFetch] }
  else
    let isTailor := roles.contains "Tailor"
    let isSeller := roles.contains "Seller"
    if !isTailor && !isSeller then
      { status := 403, success := false, orders := [], fetches := [.userRolesFetch] }
    else
      match business with
      | none =>
        { status := 404, success := false, orders := [],
          fetches := [.userRolesFetch, .businessFetch] }
      | some businessId =>
        if businessId = 0 then
          { status := 404, success := false, orders := [],
            fetches := [.userRolesFetch, .businessFetch] }
        else
          let tailorFetch := if isTailor then [Fetch.tailorOrdersFetch] else []
          let ordersData := if isTailor then tailorOrders else []
          let sellerFetch := if isSeller then [Fetch.sellerOrdersFetch] else []
          let ordersData :=
            if isSeller then
              if isTailor then mergeOrders ordersData sellerOrders else sellerOrders
            else ordersData
          let uniqueOrders := dedupByOrderId ordersData
          { status := 200, success := true, orders := uniqueOrders,
            fetches := [Fetch.userRolesFetch, Fetch.businessFetch] ++ tailorFetch
              ++ sellerFetch ++ uniqueOrders.map (fun o => Fetch.orderItemsFetch o.orderId) }

theorem mem_of_mem_dedupAux {seen : List Nat} {l : List OrderRow} {o : OrderRow}
    (h : o ∈ dedupAux seen l) : o ∈ l := by
  induction l generalizing seen with
  | nil => simp [dedupAux] at h
  | cons a rest ih =>
    by_cases ha : a.orderId ∈ seen
    · simp only [dedupAux, if_pos ha] at h
      exact List.mem_cons_of_mem _ (ih h)
    · simp only [dedupAux, if_neg ha, List.mem_cons] at h
      rcases h with h | h
      · simp [h]
      · exact List.mem_cons_of_mem _ (ih h)

theorem orderId_not_seen_of_mem_dedupAux {seen : List Nat} {l : List OrderRow}
    {o : OrderRow} (h : o ∈ dedupAux seen l) : o.orderId ∉ seen := by
  induction l generalizing seen with
  | nil => simp [dedupAux] at h
  | cons a rest ih =>
    by_cases ha : a.orderId ∈ seen
    · simp only [dedupAux, if_pos ha] at h
      exact ih h
    · simp only [dedupAux, if_neg ha, List.mem_cons] at h
      rcases h with rfl | h
      · exact ha
      · intro hmem
        exact ih h (List.mem_cons_of_mem _ hmem)

theorem nodup_orderIds_dedupAux (seen : List Nat) (l : List OrderRow) :
    ((dedupAux seen l).map (fun o => o.orderId)).Nodup := by
  induction l generalizing seen with
  | nil => simp [dedupAux]
  | cons a rest ih =>
    by_cases ha : a.orderId ∈ seen
    · simp only [dedupAux, if_pos ha]
      exact ih seen
    · simp only [dedupAux, if_neg ha, List.map_cons, List.nodup_cons]
      refine ⟨?_, ih (a.orderId :: seen)⟩
      intro hmem
      rcases List.mem_map.mp hmem with ⟨o, ho, hoid⟩
      exact orderId_not_seen_of_mem_dedupAux ho (hoid ▸ List.mem_cons_self _ _)

theorem myOrdersHandler_orders_eq
    (roles : List String) (businessId : Nat)
    (tailorOrders sellerOrders : List OrderRow)
    (hT : roles.contains "Tailor" = true)
    (hS : roles.contains "Seller" = true)
    (hB : businessId ≠ 0) :
    (myOrdersHandler roles (some businessId) tailorOrders sellerOrders).orders
      = dedupByOrderId (mergeOrders tailorOrders sellerOrders) := by
  have hne : roles.isEmpty = false := by
    cases roles with
    | nil => simp [List.contains] at hT
    | cons a l => rfl
  have hTm : "Tailor" ∈ roles := by simpa using hT
  have hSm : "Seller" ∈ roles := by simpa using hS
  simp [myOrdersHandler, hne, hTm, hSm, hB]

/-- **C1.** For a user holding both the Tailor and Seller roles (with a
business on file), the order list produced by the /my-orders handler has
no two entries with the same `orderId`, and any entry whose `orderId`
occurs in both source lists is the tailor-sourced one. -/
theorem myOrders_merge_nodup_tailor_precedence
    (roles : List String) (businessId : Nat)
    (tailorOrders sellerOrders : List OrderRow)
    (hT : roles.contains "Tailor" = true)
    (hS : roles.contains "Seller" = true)
    (hB : businessId ≠ 0) :
    (((myOrdersHandler roles (some businessId) tailorOrders sellerOrders).orders.map
        (fun o => o.orderId)).Nodup ∧
      ∀ o ∈ (myOrdersHandler roles (some businessId) tailorOrders sellerOrders).orders,
        o.orderId ∈ tailorOrders.map (fun x => x.orderId) →
        o.orderId ∈ sellerOrders.map (fun x => x.orderId) →
        o ∈ tailorOrders) := by
  rw [myOrdersHandler_orders_eq roles businessId tailorOrders sellerOrders hT hS hB]
  constructor
  · exact nodup_orderIds_dedupAux [] _
  · intro o ho hoT _
    have hmem : o ∈ mergeOrders tailorOrders sellerOrders := mem_of_mem_dedupAux ho
    rcases List.mem_append.mp hmem with h | h
    · exact h
    · exact absurd hoT (orderId_not_seen_of_mem_dedupAux h)

/-- Witness for C1 at a concrete input: order 1 occurs in both source
lists; the output keeps the tailor-sourced row. -/
theorem myOrders_merge_nodup_tailor_precedence_witness :
    (((myOrdersHandler ["Tailor", "Seller"] (some 1)
        [⟨1, "tailor1"⟩] [⟨1, "seller1"⟩, ⟨2, "seller2"⟩]).orders.map
        (fun o => o.orderId)).Nodup ∧
      ∀ o ∈ (myOrdersHandler ["Tailor", "Seller"] (some 1)
          [⟨1, "tailor1"⟩] [⟨1, "seller1"⟩, ⟨2, "seller2"⟩]).orders,
        o.orderId ∈ ([⟨1, "tailor1"⟩] : List OrderRow).map (fun x => x.orderId) →
        o.orderId ∈ ([⟨1, "seller1"⟩, ⟨2, "seller2"⟩] : List OrderRow).map
            (fun x => x.orderId) →
        o ∈ ([⟨1, "tailor1"⟩] : List OrderRow)) :=
  myOrders_merge_nodup_tailor_precedence ["Tailor", "Seller"] 1
    [⟨1, "tailor1"⟩] [⟨1, "seller1"⟩, ⟨2, "seller2"⟩]
    (by decide) (by decide) (by decide)

/-- **C2.** A user whose role set contains neither "Tailor" nor "Seller"
(including the no-roles case) gets a 403 with `success = false`, and the
handler performs no business or order fetch: only the role lookup ran. -/
theorem myOrders_403_without_tailor_or_seller
    (roles : List String) (business : Option Nat)
    (tailorOrders sellerOrders : List OrderRow)
    (hT : roles.contains "Tailor" = false)
    (hS : roles.contains "Seller" = false) :
    ((myOrdersHandler roles business tailorOrders sellerOrders).status = 403 ∧
      (myOrdersHandler roles business tailorOrders sellerOrders).success = false ∧
      (myOrdersHandler roles business tailorOrders sellerOrders).fetches
        = [Fetch.userRolesFetch]) := by
  have : myOrdersHandler roles business tailorOrders sellerOrders
      = ⟨403, false, [], [.userRolesFetch]⟩ := by
    simp only [myOrdersHandler, hT, hS, Bool.not_false, Bool.and_self, if_pos rfl]
    split <;> rfl
  rw [this]
  exact ⟨rfl, rfl, rfl⟩

/-- Witness for C2 at a concrete input: an Admin-only user is rejected
with 403 and only the role fetch happened. -/
theorem myOrders_403_without_tailor_or_seller_witness :
    ((myOrdersHandler ["Admin"] (some 1) [⟨1, "t"⟩] [⟨2, "s"⟩]).status = 403 ∧
      (myOrdersHandler ["Admin"] (some 1) [⟨1, "t"⟩] [⟨2, "s"⟩]).success = false ∧
      (myOrdersHandler ["Admin"] (some 1) [⟨1, "t"⟩] [⟨2, "s"⟩]).fetches
        = [Fetch.userRolesFetch]) :=
  myOrders_403_without_tailor_or_seller ["Admin"] (some 1) [⟨1, "t"⟩] [⟨2, "s"⟩]
    (by decide) (by decide)

/-! ## Measurement submission workflow (C3, C9)

Source: the `POST /measurement-boy/submit-measurement` route handler and
the façade operations it calls.  The SQL templates behind the façade are
not in the source excerpt; their row-level semantics are modelled from
the specification where noted. -/

/-- A Measurement row: `(orderItemId, measurementKey) → value, notes`. -/
structure MeasurementRow where
  measurementId : Nat
  orderItemId : Nat
  measurementKey : String
  measurementValue : String
  notes : Option String
deriving DecidableEq

/-- An OrderItem row, restricted to the fields the measurement workflow
touches; `requiredKeys` is the set of measurement keys the completion
aggregate requires for this item. -/
structure OrderItemRow where
  orderItemId : Nat
  orderId : Nat
  requiredKeys : List String
  isMeasurementDone : Bool
deriving DecidableEq

/-- Database state seen by the measurement workflow. -/
structure MeasurementDb where
  items : List OrderItemRow
  measurements : List MeasurementRow
  nextMeasurementId : Nat
deriving DecidableEq

/-- Modelled from the spec: the `getMeasurementByOrderItemIdAndKey` SQL
template is not in the source excerpt; per the spec a Measurement is
unique per `(orderItemId, measurementKey)` and looked up by that pair. -/
def GetMeasurementByOrderItemIdAndKey (db : MeasurementDb)
    (orderItemId : Nat) (key : String) : Option MeasurementRow :=
  db.measurements.find? (fun m => m.orderItemId == orderItemId && m.measurementKey == key)

/-- Modelled from the spec: the `updateMeasurement` SQL template is not in
the source excerpt; it updates the value and notes of the row with the
given `measurementId`. -/
def UpdateMeasurement (db : MeasurementDb) (measurementId : Nat)
    (value : String) (notes : Option String) : MeasurementDb :=
  { db with measurements := db.measurements.map (fun m =>
      if m.measurementId == measurementId then
        { m with measurementValue := value, notes := notes }
      else m) }

/-- Modelled from the spec: the `insertMeasurement` SQL template is not in
the source excerpt; it inserts a fresh row and reports its id. -/
def InsertMeasurement (db : MeasurementDb) (orderItemId : Nat)
    (key value : String) (notes : Option String) : MeasurementDb :=
  { db with
    measurements := db.measurements ++
      [{ measurementId := db.nextMeasurementId, orderItemId := orderItemId,
         measurementKey := key, measurementValue := value, notes := notes }],
    nextMeasurementId := db.nextMeasurementId + 1 }

/-- Modelled from the spec: the `checkAllMeasurementsDone` SQL template is
not in the source excerpt; the spec describes it as a database-side
aggregate: every required measurement key of every item of the order has
a Measurement row. -/
def CheckAllMeasurementsDone (db : MeasurementDb) (orderId : Nat) : Bool :=
  (db.items.filter (fun it => it.orderId == orderId)).all (fun it =>
    it.requiredKeys.all (fun k =>
      db.measurements.any (fun m =>
        m.orderItemId == it.orderItemId && m.measurementKey == k)))

/-- Modelled from the spec: the `updateOrderItemsMeasurementDone` SQL
template is not in the source excerpt; it sets `isMeasurementDone` on all
order items of the order. -/
def UpdateOrderItemsMeasurementDone (db : MeasurementDb) (orderId : Nat) : MeasurementDb :=
  { db with items := db.items.map (fun it =>
      if it.orderId == orderId then { it with isMeasurementDone := true } else it) }

/-- A submit-measurement request body after destructuring: `orderId`,
`orderItemId`, `notes`, and the remaining key/value pairs as measurement
fields.  An absent/null/empty value is represented as `""` (the source
skips exactly `null`, `undefined` and `''`). -/
structure SubmitRequest where
  orderId : Option Nat
  orderItemId : Nat
  fields : List (String × String)
  notes : Option String
deriving DecidableEq

/-- JavaScript `toUpperCase()` on measurement keys, which are ASCII;
written over the character list so that it computes by structural
recursion (`String.toUpper` itself is well-founded and does not reduce). -/
def upperKey (s : String) : String :=
  ⟨s.data.map Char.toUpper⟩

/-- One iteration of the per-field loop: skip empty values; otherwise
uppercase the key, look the pair up, and update the existing row or
insert a new one.  Returns the new state and whether a row was saved. -/
def processField (orderItemId : Nat) (notes : Option String) (db : MeasurementDb)
    (kv : String × String) : MeasurementDb × Bool :=
  if kv.2 = "" then (db, false)
  else
    let key := upperKey kv.1
    match GetMeasurementByOrderItemIdAndKey db orderItemId key with
    | some m => (UpdateMeasurement db m.measurementId kv.2 notes, true)
    | none => (InsertMeasurement db orderItemId key kv.2 notes, true)

/-- The whole per-field loop; returns the final state and the number of
saved measurements (`insertedMeasurements.length`). -/
def processFields (orderItemId : Nat) (notes : Option String) :
    MeasurementDb → List (String × String) → MeasurementDb × Nat
  | db, [] => (db, 0)
  | db, kv :: rest =>
    let step := processField orderItemId notes db kv
    let restResult := processFields orderItemId notes step.1 rest
    (restResult.1, (if step.2 then 1 else 0) + restResult.2)

/-- Response of the submit-measurement handler: status, success flag, the
resulting database state, the number of `UpdateOrderItemsMeasurementDone`
invocations, and the reported `allMeasurementsDone` flag. -/
structure SubmitResult where
  status : Nat
  success : Bool
  db : MeasurementDb
  updateDoneCalls : Nat
  allMeasurementsDone : Bool
deriving DecidableEq

/-- The `POST /measurement-boy/submit-measurement` handler.  `checkThrows`
/ `updateThrows` model the completion check or the cascade throwing; the
source catches both around the whole completion block and logs only. -/
def submitMeasurementHandler (roles : List String) (req : SubmitRequest)
    (db : MeasurementDb) (checkThrows updateThrows : Bool) : SubmitResult :=
  if !(roles.contains "MeasurementBoy") then
    ⟨403, false, db, 0, false⟩
  else if req.fields.isEmpty then
    ⟨400, false, db, 0, false⟩
  else
    let saved := processFields req.orderItemId req.notes db req.fields
    if saved.2 = 0 then
      ⟨400, false, saved.1, 0, false⟩
    else
      match req.orderId with
      | none => ⟨201, true, saved.1, 0, false⟩
      | some orderId =>
        if checkThrows then ⟨201, true, saved.1, 0, false⟩
        else if CheckAllMeasurementsDone saved.1 orderId then
          if updateThrows then ⟨201, true, saved.1, 1, true⟩
          else ⟨201, true, UpdateOrderItemsMeasurementDone saved.1 orderId, 1, true⟩
        else ⟨201, true, saved.1, 0, false⟩

theorem processField_saved {orderItemId : Nat} {notes : Option String}
    {db : MeasurementDb} {kv : String × String} (h : kv.2 ≠ "") :
    (processField orderItemId notes db kv).2 = true := by
  simp only [processField, if_neg h]
  cases GetMeasurementByOrderItemIdAndKey db orderItemId (upperKey kv.1) <;> rfl

theorem processFields_pos {orderItemId : Nat} {notes : Option String}
    {l : List (String × String)} (h : ∃ kv ∈ l, kv.2 ≠ "") (db : MeasurementDb) :
    (processFields orderItemId notes db l).2 ≠ 0 := by
  induction l generalizing db with
  | nil => simp at h
  | cons kv rest ih =>
    rcases h with ⟨kv', hmem, hne⟩
    simp only [processFields]
    rcases List.mem_cons.mp hmem with rfl | hmem'
    · rw [processField_saved hne]
      simp
    · have := ih ⟨kv', hmem', hne⟩ (processField orderItemId notes db kv).1
      cases h2 : (processField orderItemId notes db kv).2 <;> simp [h2, this]

theorem updateDone_items {db : MeasurementDb} {oid : Nat} :
    ∀ it ∈ (UpdateOrderItemsMeasurementDone db oid).items,
      it.orderId = oid → it.isMeasurementDone = true := by
  intro it hit
  simp only [UpdateOrderItemsMeasurementDone, List.mem_map] at hit
  rcases hit with ⟨x, hx, rfl⟩
  by_cases h : x.orderId = oid
  · intro _; simp [h]
  · simp only [beq_iff_eq, if_neg h]
    intro hoid
    exact absurd hoid h

theorem updateDone_measurements (db : MeasurementDb) (oid : Nat) :
    (UpdateOrderItemsMeasurementDone db oid).measurements = db.measurements := rfl

theorem submitMeasurementHandler_run_nothrow
    (roles : List String) (req : SubmitRequest) (db : MeasurementDb) (oid : Nat)
    (hrole : roles.contains "MeasurementBoy" = true)
    (hne : req.fields.isEmpty = false)
    (horder : req.orderId = some oid)
    (hpos : (processFields req.orderItemId req.notes db req.fields).2 ≠ 0) :
    submitMeasurementHandler roles req db false false
      = if CheckAllMeasurementsDone
            (processFields req.orderItemId req.notes db req.fields).1 oid then
          ⟨201, true,
            UpdateOrderItemsMeasurementDone
              (processFields req.orderItemId req.notes db req.fields).1 oid, 1, true⟩
        else
          ⟨201, true, (processFields req.orderItemId req.notes db req.fields).1, 0, false⟩ := by
  simp only [submitMeasurementHandler, hrole, hne, horder, Bool.not_true,
    Bool.false_eq_true, if_false, if_neg hpos]

theorem submitMeasurementHandler_run_checkThrow
    (roles : List String) (req : SubmitRequest) (db : MeasurementDb) (oid : Nat)
    (hrole : roles.contains "MeasurementBoy" = true)
    (hne : req.fields.isEmpty = false)
    (horder : req.orderId = some oid)
    (hpos : (processFields req.orderItemId req.notes db req.fields).2 ≠ 0) :
    submitMeasurementHandler roles req db true false
      = ⟨201, true, (processFields req.orderItemId req.notes db req.fields).1, 0, false⟩ := by
  simp only [submitMeasurementHandler, hrole, hne, horder, Bool.not_true,
    Bool.false_eq_true, if_false, if_neg hpos, if_pos rfl, if_true]

theorem submitMeasurementHandler_run_updateThrow
    (roles : List String) (req : SubmitRequest) (db : MeasurementDb) (oid : Nat)
    (hrole : roles.contains "MeasurementBoy" = true)
    (hne : req.fields.isEmpty = false)
    (horder : req.orderId = some oid)
    (hpos : (processFields req.orderItemId req.notes db req.fields).2 ≠ 0) :
    submitMeasurementHandler roles req db false true
      = if CheckAllMeasurementsDone
            (processFields req.orderItemId req.notes db req.fields).1 oid then
          ⟨201, true, (processFields req.orderItemId req.notes db req.fields).1, 1, true⟩
        else
          ⟨201, true, (processFields req.orderItemId req.notes db req.fields).1, 0, false⟩ := by
  simp only [submitMeasurementHandler, hrole, hne, horder, Bool.not_true,
    Bool.false_eq_true, if_false, if_neg hpos, if_pos rfl, if_true]

/-- **C3 (amended).** For every submit-measurement request by a user with
the MeasurementBoy role that supplies an orderId and saves at least one
non-empty measurement value: if after saving every required measurement
key across every item of that order has been submitted, the cascade
`UpdateOrderItemsMeasurementDone` is invoked exactly once, setting
`isMeasurementDone = true` on all order items of that order (zero times
when the completion aggregate is not yet satisfied); and if the
completion check or the cascade throws, the request still returns 201 and
the measurements saved in the request are not rolled back. -/
theorem submitMeasurement_completion_cascade
    (roles : List String) (req : SubmitRequest) (db : MeasurementDb) (oid : Nat)
    (hrole : roles.contains "MeasurementBoy" = true)
    (horder : req.orderId = some oid)
    (hsaved : ∃ kv ∈ req.fields, kv.2 ≠ "") :
    ((CheckAllMeasurementsDone
          (processFields req.orderItemId req.notes db req.fields).1 oid = true →
        (submitMeasurementHandler roles req db false false).updateDoneCalls = 1 ∧
        ∀ it ∈ (submitMeasurementHandler roles req db false false).db.items,
          it.orderId = oid → it.isMeasurementDone = true) ∧
      (CheckAllMeasurementsDone
          (processFields req.orderItemId req.notes db req.fields).1 oid = false →
        (submitMeasurementHandler roles req db false false).updateDoneCalls = 0) ∧
      (submitMeasurementHandler roles req db false false).status = 201 ∧
      (submitMeasurementHandler roles req db true false).status = 201 ∧
      (submitMeasurementHandler roles req db false true).status = 201 ∧
      (submitMeasurementHandler roles req db true false).db.measurements
        = (processFields req.orderItemId req.notes db req.fields).1.measurements ∧
      (submitMeasurementHandler roles req db false true).db.measurements
        = (processFields req.orderItemId req.notes db req.fields).1.measurements ∧
      (submitMeasurementHandler roles req db false false).db.measurements
        = (processFields req.orderItemId req.notes db req.fields).1.measurements) := by
  have hne : req.fields.isEmpty = false := by
    rcases hsaved with ⟨kv, hmem, _⟩
    cases hf : req.fields with
    | nil => rw [hf] at hmem; simp at hmem
    | cons a l => rfl
  have hpos : (processFields req.orderItemId req.notes db req.fields).2 ≠ 0 :=
    processFields_pos hsaved db
  rw [submitMeasurementHandler_run_nothrow roles req db oid hrole hne horder hpos,
    submitMeasurementHandler_run_checkThrow roles req db oid hrole hne horder hpos,
    submitMeasurementHandler_run_updateThrow roles req db oid hrole hne horder hpos]
  by_cases hc : CheckAllMeasurementsDone
      (processFields req.orderItemId req.notes db req.fields).1 oid = true
  · rw [if_pos hc, if_pos hc]
    exact ⟨fun _ => ⟨rfl, updateDone_items⟩,
      fun hf => absurd (hf ▸ hc) (by decide), rfl, rfl, rfl, rfl, rfl,
      updateDone_measurements _ _⟩
  · rw [if_neg hc, if_neg hc]
    exact ⟨fun ht => absurd ht hc, fun _ => rfl, rfl, rfl, rfl, rfl, rfl, rfl⟩

/-- Witness for C3 (amended) at a concrete input: one non-empty field
completes the only required key, so the cascade runs exactly once. -/
theorem submitMeasurement_completion_cascade_witness :
    (submitMeasurementHandler ["MeasurementBoy"]
        ⟨some 5, 10, [("chest", "40")], none⟩
        ⟨[⟨10, 5, ["CHEST"], false⟩], [], 0⟩ false false).updateDoneCalls = 1 :=
  ((submitMeasurement_completion_cascade ["MeasurementBoy"]
      ⟨some 5, 10, [("chest", "40")], none⟩
      ⟨[⟨10, 5, ["CHEST"], false⟩], [], 0⟩ 5
      (by decide) (by decide) ⟨("chest", "40"), by decide, by decide⟩).1
    (by decide)).1

/-- **C3, counterexample to the claim as stated.**  A request that
supplies an orderId, whose only field carries an empty value, against a
database where the order's required keys are already fully submitted:
after the request the completion aggregate holds, yet the cascade was
invoked zero times (the claim demands exactly once) and the response is
400, not 201. -/
theorem submitMeasurement_completion_counterexample :
    (CheckAllMeasurementsDone
        (submitMeasurementHandler ["MeasurementBoy"]
          ⟨some 5, 10, [("chest", "")], none⟩
          ⟨[⟨10, 5, ["CHEST"], false⟩], [⟨0, 10, "CHEST", "40", none⟩], 1⟩
          false false).db 5 = true ∧
      (submitMeasurementHandler ["MeasurementBoy"]
          ⟨some 5, 10, [("chest", "")], none⟩
          ⟨[⟨10, 5, ["CHEST"], false⟩], [⟨0, 10, "CHEST", "40", none⟩], 1⟩
          false false).updateDoneCalls = 0 ∧
      (submitMeasurementHandler ["MeasurementBoy"]
          ⟨some 5, 10, [("chest", "")], none⟩
          ⟨[⟨10, 5, ["CHEST"], false⟩], [⟨0, 10, "CHEST", "40", none⟩], 1⟩
          false false).status = 400) := by decide

theorem processField_keys {orderItemId : Nat} {notes : Option String}
    {db : MeasurementDb} {kv : String × String} :
    ∀ m ∈ (processField orderItemId notes db kv).1.measurements,
      (∃ m0 ∈ db.measurements, m.measurementKey = m0.measurementKey) ∨
        m.measurementKey = upperKey kv.1 := by
  intro m hm
  by_cases hv : kv.2 = ""
  · left
    refine ⟨m, ?_, rfl⟩
    simpa [processField, hv] using hm
  · simp only [processField, if_neg hv] at hm
    cases hfind : GetMeasurementByOrderItemIdAndKey db orderItemId (upperKey kv.1) with
    | some m0 =>
      rw [hfind] at hm
      simp only [UpdateMeasurement, List.mem_map] at hm
      rcases hm with ⟨x, hx, rfl⟩
      left
      refine ⟨x, hx, ?_⟩
      by_cases h : x.measurementId = m0.measurementId <;> simp [h]
    | none =>
      rw [hfind] at hm
      simp only [InsertMeasurement, List.mem_append, List.mem_singleton] at hm
      rcases hm with hm | rfl
      · left; exact ⟨m, hm, rfl⟩
      · right; rfl

theorem processFields_keys {orderItemId : Nat} {notes : Option String} :
    ∀ (l : List (String × String)) (db : MeasurementDb),
      ∀ m ∈ (processFields orderItemId notes db l).1.measurements,
        (∃ m0 ∈ db.measurements, m.measurementKey = m0.measurementKey) ∨
          ∃ kv ∈ l, m.measurementKey = upperKey kv.1 := by
  intro l
  induction l with
  | nil =>
    intro db m hm
    left
    refine ⟨m, ?_, rfl⟩
    simpa [processFields] using hm
  | cons kv rest ih =>
    intro db m hm
    simp only [processFields] at hm
    rcases ih (processField orderItemId notes db kv).1 m hm with h | ⟨kv', hkv', hk⟩
    · rcases h with ⟨m1, hm1, hkey⟩
      rcases processField_keys m1 hm1 with h2 | h2
      · rcases h2 with ⟨m0, hm0, hkey0⟩
        left; exact ⟨m0, hm0, hkey.trans hkey0⟩
      · right; exact ⟨kv, List.mem_cons_self _ _, hkey.trans h2⟩
    · right; exact ⟨kv', List.mem_cons_of_mem _ hkv', hk⟩

theorem submitMeasurement_written_keys
    (roles : List String) (req : SubmitRequest) (db : MeasurementDb)
    (checkThrows updateThrows : Bool) :
    ∀ m ∈ (submitMeasurementHandler roles req db checkThrows updateThrows).db.measurements,
      (∃ m0 ∈ db.measurements, m.measurementKey = m0.measurementKey) ∨
        ∃ kv ∈ req.fields, m.measurementKey = upperKey kv.1 := by
  intro m hm
  simp only [submitMeasurementHandler] at hm
  split at hm
  · exact Or.inl ⟨m, hm, rfl⟩
  · split at hm
    · exact Or.inl ⟨m, hm, rfl⟩
    · split at hm
      · exact processFields_keys req.fields db m hm
      · split at hm
        · exact processFields_keys req.fields db m hm
        · split at hm
          · exact processFields_keys req.fields db m hm
          · split at hm
            · split at hm
              · exact processFields_keys req.fields db m hm
              · exact processFields_keys req.fields db m hm
            · exact processFields_keys req.fields db m hm

/-- **C9.** Every Measurement row present after a submit-measurement run
either carries a key that already existed in the database or the
uppercased form of a submitted field name; consequently two submitted
fields whose names differ only in case target the same
`(orderItemId, measurementKey)` pair: concretely, submitting
`chest = 40` then `Chest = 42` against an empty table yields exactly one
row, keyed `CHEST`, holding the later value `42` via the update branch. -/
theorem measurementKeys_uppercased :
    ((∀ (roles : List String) (req : SubmitRequest) (db : MeasurementDb)
        (checkThrows updateThrows : Bool),
        ∀ m ∈ (submitMeasurementHandler roles req db checkThrows updateThrows).db.measurements,
          (∃ m0 ∈ db.measurements, m.measurementKey = m0.measurementKey) ∨
            ∃ kv ∈ req.fields, m.measurementKey = upperKey kv.1) ∧
      (submitMeasurementHandler ["MeasurementBoy"]
          ⟨some 5, 10, [("chest", "40"), ("Chest", "42")], none⟩
          ⟨[⟨10, 5, ["CHEST"], false⟩], [], 0⟩ false false).db.measurements
        = [⟨0, 10, "CHEST", "42", none⟩]) :=
  ⟨submitMeasurement_written_keys, by decide⟩

/-- Witness for C9: the single row written by a concrete run is keyed by
the uppercased form of a submitted field name. -/
theorem measurementKeys_uppercased_witness :
    ((∃ m0 ∈ ([] : List MeasurementRow),
        (⟨0, 10, "CHEST", "40", none⟩ : MeasurementRow).measurementKey
          = m0.measurementKey) ∨
      ∃ kv ∈ [("chest", "40")],
        (⟨0, 10, "CHEST", "40", none⟩ : MeasurementRow).measurementKey
          = upperKey kv.1) :=
  measurementKeys_uppercased.1 ["MeasurementBoy"]
    ⟨some 5, 10, [("chest", "40")], none⟩
    ⟨[⟨10, 5, ["CHEST"], false⟩], [], 0⟩ false false
    ⟨0, 10, "CHEST", "40", none⟩ (by decide)

/-! ## Product creation (C4, C5)

Source: the `POST /` add-product route in the product controller, the
`getBrandId` / `getCategoryId` helpers, and the (unwired) validation-rule
set of the product validator module.  Prices are request-body numbers,
modelled as rationals. -/

/-- A Brand or Category lookup-table row. -/
structure LookupRow where
  id : Nat
  name : String
deriving DecidableEq

/-- JavaScript `trim()`: strip whitespace from both ends.  Written over
the character list by structural recursion so that it computes
(`String.trim` itself is defined through `Substring` loops that do not
reduce). -/
def jsTrim (s : String) : String :=
  ⟨((s.data.dropWhile Char.isWhitespace).reverse.dropWhile Char.isWhitespace).reverse⟩

/-- A caller-supplied brand/category reference: a numeric id (a JS number
or an all-digit string, which the source parses to the same id path) or a
name. -/
inductive LookupRef where
  | byId (id : Nat)
  | byName (name : String)
deriving DecidableEq

/-- The `getBrandId` helper: an id is verified to exist and echoed; a
name is trimmed and looked up, and a missing name produces an error
message that quotes the supplied string. -/
def getBrandId (brands : List LookupRow) (brand : LookupRef) : Except String Nat :=
  match brand with
  | .byId id =>
    match brands.find? (fun b => b.id == id) with
    | some _ => .ok id
    | none => .error ("Brand with ID " ++ toString id ++ " not found")
  | .byName n =>
    match brands.find? (fun b => b.name == jsTrim n) with
    | some b => .ok b.id
    | none => .error ("Brand \"" ++ n ++ "\" not found. Please create the brand first.")

/-- The `getCategoryId` helper, same shape as `getBrandId`. -/
def getCategoryId (categories : List LookupRow) (category : LookupRef) : Except String Nat :=
  match category with
  | .byId id =>
    match categories.find? (fun c => c.id == id) with
    | some _ => .ok id
    | none => .error ("Category with ID " ++ toString id ++ " not found")
  | .byName n =>
    match categories.find? (fun c => c.name == jsTrim n) with
    | some c => .ok c.id
    | none => .error ("Category \"" ++ n ++ "\" not found. Please create the category first.")

/-- The `priceSale` rule of the product validator module
(`validationRules.priceSale`): an optional sale price, which when present
together with a truthy MRP must be strictly less than it.  Returns `true`
when the rule would reject.  This rule set is defined but never attached
to the add-product route. -/
def priceSaleRuleRejects (price_sale price_mrp : Option ℚ) : Bool :=
  match price_sale, price_mrp with
  | some v, some m => v != 0 && m != 0 && decide (m ≤ v)
  | _, _ => false

/-- An add-product request after form parsing: the fields the embedded
claims depend on.  `price_mrp` / `price_sale` are the parsed numbers
(`none` when absent). -/
structure AddProductRequest where
  title : String
  price_mrp : Option ℚ
  price_sale : Option ℚ
  brand : Option LookupRef
  category : Option LookupRef
  user_id : Option Nat
  hasComplianceFields : Bool
  imageCount : Nat
deriving DecidableEq

/-- A database write performed by the add-product route. -/
inductive ProductWrite where
  | insertProduct (brand_id category_id : Option Nat)
  | insertUserProduct (user_id : Nat)
  | insertProductPrice (price_mrp : ℚ) (price_sale : Option ℚ)
  | insertProductCompliance
  | insertProductImage (index : Nat) (is_primary : Bool)
deriving DecidableEq

/-- Response of the add-product route plus the trace of database writes. -/
structure AddProductResult where
  status : Nat
  success : Bool
  message : String
  brand_id : Option Nat
  writes : List ProductWrite
deriving DecidableEq

/-- The `POST /` add-product route.  The only validation the route runs is
the manual title and MRP checks; brand and category are then resolved
(each failure yielding 400 before any write), after which the product,
user-product link, price, compliance and images are inserted in order. -/
def addProductHandler (brands categories : List LookupRow)
    (req : AddProductRequest) : AddProductResult :=
  if (jsTrim req.title).length < 3 then
    ⟨400, false, "Product title is required and must be at least 3 characters", none, []⟩
  else
    match req.price_mrp with
    | none =>
      ⟨400, false, "MRP price is required and must be a valid positive number", none, []⟩
    | some mrp =>
      if mrp < 0 then
        ⟨400, false, "MRP price is required and must be a valid positive number", none, []⟩
      else
        let brandRes : Except String (Option Nat) :=
          match req.brand with
          | none => .ok none
          | some b => (getBrandId brands b).map some
        match brandRes with
        | .error msg => ⟨400, false, msg, none, []⟩
        | .ok brandId =>
          let categoryRes : Except String (Option Nat) :=
            match req.category with
            | none => .ok none
            | some c => (getCategoryId categories c).map some
          match categoryRes with
          | .error msg => ⟨400, false, msg, none, []⟩
          | .ok categoryId =>
            let writes := [ProductWrite.insertProduct brandId categoryId]
            let writes := writes ++ (match req.user_id with
              | some uid => [ProductWrite.insertUserProduct uid]
              | none => [])
            let writes := writes ++ [ProductWrite.insertProductPrice mrp req.price_sale]
            let writes := writes ++
              (if req.hasComplianceFields then [ProductWrite.insertProductCompliance] else [])
            let writes := writes ++
              (List.range req.imageCount).map
                (fun i => ProductWrite.insertProductImage i (i == 0))
            ⟨201, true, "Product created successfully", brandId, writes⟩

/-- **C4 (code evaluation at the failing input).** A request with
`price_sale = 150 ≥ price_mrp = 100` is one the validator module's
`priceSale` rule rejects, yet the add-product route — which never runs
that rule — returns 201 and performs both the Product and the
ProductPrice insert with the offending sale price. -/
theorem addProduct_accepts_sale_ge_mrp :
    (priceSaleRuleRejects (some 150) (some 100) = true ∧
      (addProductHandler [] [] ⟨"Shirt", some 100, some 150, none, none,
          none, false, 0⟩).status = 201 ∧
      ProductWrite.insertProduct none none
        ∈ (addProductHandler [] [] ⟨"Shirt", some 100, some 150, none, none,
            none, false, 0⟩).writes ∧
      ProductWrite.insertProductPrice 100 (some 150)
        ∈ (addProductHandler [] [] ⟨"Shirt", some 100, some 150, none, none,
            none, false, 0⟩).writes) := by
  refine ⟨by decide, ?_, ?_, ?_⟩ <;> decide

/-- **C5.** Brand resolution in product creation: a brand name absent
from the Brand table yields a 400 whose message quotes the supplied
string, with no database write; a numeric brand id that exists is echoed
back as `brand_id` in the created product's response. -/
theorem addProduct_brand_resolution
    (brands categories : List LookupRow) (req : AddProductRequest) (mrp : ℚ)
    (htitle : ¬ (jsTrim req.title).length < 3)
    (hmrp : req.price_mrp = some mrp) (hpos : ¬ mrp < 0) :
    ((∀ n, req.brand = some (.byName n) →
        (∀ b ∈ brands, b.name ≠ jsTrim n) →
        (addProductHandler brands categories req).status = 400 ∧
        (addProductHandler brands categories req).success = false ∧
        (addProductHandler brands categories req).message
          = "Brand \"" ++ n ++ "\" not found. Please create the brand first." ∧
        (addProductHandler brands categories req).writes = []) ∧
      (∀ i, req.brand = some (.byId i) →
        (∃ b ∈ brands, b.id = i) →
        (addProductHandler brands categories req).status = 201 →
        (addProductHandler brands categories req).brand_id = some i)) := by
  constructor
  · intro n hb hmiss
    have hfind : brands.find? (fun b => b.name == jsTrim n) = none := by
      rw [List.find?_eq_none]
      intro b hbmem
      simpa using hmiss b hbmem
    simp only [addProductHandler, if_neg htitle, hmrp, if_neg hpos, hb, getBrandId,
      hfind, Except.map]
    refine ⟨?_, ?_, ?_, ?_⟩ <;> trivial
  · intro i hb hex
    rcases hex with ⟨b0, hb0, hbid⟩
    have hisSome : (brands.find? (fun b => b.id == i)).isSome := by
      rw [List.find?_isSome]
      exact ⟨b0, hb0, by simp [hbid]⟩
    rcases Option.isSome_iff_exists.mp hisSome with ⟨x, hx⟩
    cases hreqc : req.category with
    | none =>
      simp only [addProductHandler, if_neg htitle, hmrp, if_neg hpos, hb, getBrandId,
        hx, Except.map, hreqc]
      intro _
      trivial
    | some c =>
      cases hgc : getCategoryId categories c with
      | error msg =>
        simp only [addProductHandler, if_neg htitle, hmrp, if_neg hpos, hb, getBrandId,
          hx, Except.map, hreqc, hgc]
        intro h
        first | exact h.elim | exact absurd h (by decide)
      | ok cid =>
        simp only [addProductHandler, if_neg htitle, hmrp, if_neg hpos, hb, getBrandId,
          hx, Except.map, hreqc, hgc]
        intro _
        trivial

/-- Witness for C5 at concrete inputs: name "Nike" is absent from a Brand
table holding only id 7 "Acme"; id 7 itself resolves and is echoed. -/
theorem addProduct_brand_resolution_witness :
    (((addProductHandler [⟨7, "Acme"⟩] []
        ⟨"Shirt", some 100, none, some (.byName "Nike"), none, none, false, 0⟩).status
          = 400 ∧
      (addProductHandler [⟨7, "Acme"⟩] []
        ⟨"Shirt", some 100, none, some (.byName "Nike"), none, none, false, 0⟩).success
          = false ∧
      (addProductHandler [⟨7, "Acme"⟩] []
        ⟨"Shirt", some 100, none, some (.byName "Nike"), none, none, false, 0⟩).message
          = "Brand \"" ++ "Nike" ++ "\" not found. Please create the brand first." ∧
      (addProductHandler [⟨7, "Acme"⟩] []
        ⟨"Shirt", some 100, none, some (.byName "Nike"), none, none, false, 0⟩).writes
          = []) ∧
      (addProductHandler [⟨7, "Acme"⟩] []
        ⟨"Shirt", some 100, none, some (.byId 7), none, none, false, 0⟩).brand_id
          = some 7) :=
  ⟨(addProduct_brand_resolution [⟨7, "Acme"⟩] []
      ⟨"Shirt", some 100, none, some (.byName "Nike"), none, none, false, 0⟩ 100
      (by decide) rfl (by decide)).1 "Nike" rfl (by decide),
    (addProduct_brand_resolution [⟨7, "Acme"⟩] []
      ⟨"Shirt", some 100, none, some (.byId 7), none, none, false, 0⟩ 100
      (by decide) rfl (by decide)).2 7 rfl ⟨⟨7, "Acme"⟩, by decide, rfl⟩ (by decide)⟩

/-! ## Tailor date availability upsert (C6)

Source: the `POST /tailor-date-availability` route in the business
controller.  The SQL templates behind the three façade operations are not
in the source excerpt; their row-level semantics are modelled from the
specification ("unique per (businessId, date); upsert semantics
(check-then-insert-or-update)"). -/

/-- A TailorDateAvailability row. -/
structure TdaRow where
  id : Nat
  businessId : Nat
  date : String
  isClosed : Bool
deriving DecidableEq

/-- The TailorDateAvailability table plus its id counter. -/
structure TdaState where
  rows : List TdaRow
  nextId : Nat
deriving DecidableEq

/-- Modelled from the spec: the `checkTailorDateAvailabilityExists` SQL
template is absent; it looks the row up by the `(businessId, date)` pair. -/
def CheckTailorDateAvailabilityExists (st : TdaState) (businessId : Nat)
    (date : String) : Option TdaRow :=
  st.rows.find? (fun r => r.businessId == businessId && r.date == date)

/-- Modelled from the spec: the `insertTailorDateAvailability` SQL
template is absent; it inserts a fresh row and reports its id. -/
def InsertTailorDateAvailability (st : TdaState) (businessId : Nat)
    (date : String) (isClosed : Bool) : Nat × TdaState :=
  (st.nextId,
    ⟨st.rows ++ [⟨st.nextId, businessId, date, isClosed⟩], st.nextId + 1⟩)

/-- Modelled from the spec: the `updateTailorDateAvailability` SQL
template is absent; it updates the date and flag of the row with the
given id (the handler passes the existing row's id). -/
def UpdateTailorDateAvailability (st : TdaState) (tdaId : Nat)
    (date : String) (isClosed : Bool) : TdaState :=
  ⟨st.rows.map (fun r =>
      if r.id == tdaId then { r with date := date, isClosed := isClosed } else r),
    st.nextId⟩

/-- Response of the upsert route: status, success and resulting table. -/
structure TdaResult where
  status : Nat
  success : Bool
  state : TdaState
deriving DecidableEq

/-- The `POST /tailor-date-availability` route: validate the three body
fields (JS truthiness: a zero businessId or empty date string is also
rejected; `isClosed` is checked only against null/undefined, so `false`
passes), then check-then-update-or-insert. -/
def tailorDateAvailabilityHandler (st : TdaState) (businessId : Option Nat)
    (date : Option String) (isClosed : Option Bool) : TdaResult :=
  match businessId with
  | none => ⟨400, false, st⟩
  | some bid =>
    if bid = 0 then ⟨400, false, st⟩
    else
      match date with
      | none => ⟨400, false, st⟩
      | some d =>
        if d = "" then ⟨400, false, st⟩
        else
          match isClosed with
          | none => ⟨400, false, st⟩
          | some c =>
            match CheckTailorDateAvailabilityExists st bid d with
            | some existing =>
              ⟨200, true, UpdateTailorDateAvailability st existing.id d c⟩
            | none => ⟨201, true, (InsertTailorDateAvailability st bid d c).2⟩

/-- **C6.** The tailor-date-availability upsert is idempotent on its
natural key: from a state holding no row for `(businessId, date)` (and
whose ids are below the id counter), submitting the same payload twice
yields a 201 insert then a 200 update, and exactly one row for that
`(businessId, date)` pair. -/
theorem tda_upsert_idempotent (st : TdaState) (bid : Nat) (d : String) (c : Bool)
    (hbid : bid ≠ 0) (hd : d ≠ "")
    (hfresh : ∀ r ∈ st.rows, r.id < st.nextId)
    (hnone : ∀ r ∈ st.rows, ¬(r.businessId = bid ∧ r.date = d)) :
    ((tailorDateAvailabilityHandler st (some bid) (some d) (some c)).status = 201 ∧
      (tailorDateAvailabilityHandler
        (tailorDateAvailabilityHandler st (some bid) (some d) (some c)).state
        (some bid) (some d) (some c)).status = 200 ∧
      ((tailorDateAvailabilityHandler
          (tailorDateAvailabilityHandler st (some bid) (some d) (some c)).state
          (some bid) (some d) (some c)).state.rows.filter
        (fun r => r.businessId == bid && r.date == d)).length = 1) := by
  have hpred : ∀ r ∈ st.rows, ¬((fun r => r.businessId == bid && r.date == d) r = true) := by
    intro r hr
    have := hnone r hr
    simp only [Bool.and_eq_true, beq_iff_eq]
    exact fun h => this h
  have hfind1 : st.rows.find? (fun r => r.businessId == bid && r.date == d) = none :=
    List.find?_eq_none.mpr hpred
  have h1 : tailorDateAvailabilityHandler st (some bid) (some d) (some c)
      = ⟨201, true, ⟨st.rows ++ [⟨st.nextId, bid, d, c⟩], st.nextId + 1⟩⟩ := by
    simp only [tailorDateAvailabilityHandler, if_neg hbid, if_neg hd,
      CheckTailorDateAvailabilityExists, hfind1, InsertTailorDateAvailability]
  rw [h1]
  have hfind2 : (st.rows ++ [(⟨st.nextId, bid, d, c⟩ : TdaRow)]).find?
      (fun r => r.businessId == bid && r.date == d)
      = some ⟨st.nextId, bid, d, c⟩ := by
    rw [List.find?_append, hfind1]
    simp
  have h2 : tailorDateAvailabilityHandler
      (⟨st.rows ++ [⟨st.nextId, bid, d, c⟩], st.nextId + 1⟩ : TdaState)
      (some bid) (some d) (some c)
      = ⟨200, true, UpdateTailorDateAvailability
          (⟨st.rows ++ [⟨st.nextId, bid, d, c⟩], st.nextId + 1⟩ : TdaState)
          st.nextId d c⟩ := by
    simp only [tailorDateAvailabilityHandler, if_neg hbid, if_neg hd,
      CheckTailorDateAvailabilityExists, hfind2]
  refine ⟨rfl, ?_, ?_⟩
  · rw [h2]
  · rw [h2]
    have hrows : (UpdateTailorDateAvailability
        (⟨st.rows ++ [⟨st.nextId, bid, d, c⟩], st.nextId + 1⟩ : TdaState)
        st.nextId d c).rows = st.rows ++ [(⟨st.nextId, bid, d, c⟩ : TdaRow)] := by
      simp only [UpdateTailorDateAvailability, List.map_append]
      congr 1
      · have hcong : ∀ r ∈ st.rows,
            (if r.id == st.nextId then { r with date := d, isClosed := c } else r)
              = id r := by
          intro r hr
          have hlt := hfresh r hr
          have hneq : (r.id == st.nextId) = false := by
            simp only [beq_eq_false_iff_ne, ne_eq]
            omega
          simp [hneq]
        rw [List.map_congr_left hcong, List.map_id]
      · simp
    show ((UpdateTailorDateAvailability
        (⟨st.rows ++ [⟨st.nextId, bid, d, c⟩], st.nextId + 1⟩ : TdaState)
        st.nextId d c).rows.filter (fun r => r.businessId == bid && r.date == d)).length = 1
    rw [hrows, List.filter_append]
    have hfilter0 : st.rows.filter (fun r => r.businessId == bid && r.date == d) = [] :=
      List.filter_eq_nil_iff.mpr hpred
    rw [hfilter0]
    simp

/-- Witness for C6 at a concrete input: starting from the empty table,
the same payload twice gives one insert, one update and a single row. -/
theorem tda_upsert_idempotent_witness :
    ((tailorDateAvailabilityHandler ⟨[], 0⟩ (some 3)
        (some "2025-01-01") (some true)).status = 201 ∧
      (tailorDateAvailabilityHandler
        (tailorDateAvailabilityHandler ⟨[], 0⟩ (some 3)
          (some "2025-01-01") (some true)).state
        (some 3) (some "2025-01-01") (some true)).status = 200 ∧
      ((tailorDateAvailabilityHandler
          (tailorDateAvailabilityHandler ⟨[], 0⟩ (some 3)
            (some "2025-01-01") (some true)).state
          (some 3) (some "2025-01-01") (some true)).state.rows.filter
        (fun r => r.businessId == 3 && r.date == "2025-01-01")).length = 1) :=
  tda_upsert_idempotent ⟨[], 0⟩ 3 "2025-01-01" true (by decide) (by decide)
    (by intro r hr; simp at hr) (by intro r hr; simp at hr)

/-! ## Product deletion cascade (C7)

Source: the `DELETE /:id` route in the product controller.  Each of the
four dependent-data deletes sits in its own try/catch whose catch only
logs, so a throw there cannot change the control flow; only the final
`DeleteProduct` throw yields a 500. -/

/-- One sub-step of the product deletion cascade. -/
inductive DelStep where
  | images
  | compliance
  | price
  | userProduct
  | product
deriving DecidableEq

/-- Response of the delete-product route plus the trace of attempted
delete sub-steps (in call order) and of those that completed. -/
structure DeleteProductResult where
  status : Nat
  success : Bool
  attempted : List DelStep
  completed : List DelStep
deriving DecidableEq

/-- The `DELETE /:id` route.  `productExistsInDb` is what `GetProductById`
reports; the five `...Throws` flags model the corresponding façade call
throwing.  The four cascade catches only log, so those flags only affect
the completed list; a `DeleteProduct` throw yields the 500 response. -/
def deleteProductHandler (productExistsInDb : Bool)
    (imagesThrows complianceThrows priceThrows userProductThrows productThrows : Bool) :
    DeleteProductResult :=
  if !productExistsInDb then ⟨404, false, [], []⟩
  else
    let attempted := [DelStep.images]
    let completed := if imagesThrows then [] else [DelStep.images]
    let attempted := attempted ++ [DelStep.compliance]
    let completed := completed ++ (if complianceThrows then [] else [DelStep.compliance])
    let attempted := attempted ++ [DelStep.price]
    let completed := completed ++ (if priceThrows then [] else [DelStep.price])
    let attempted := attempted ++ [DelStep.userProduct]
    let completed := completed ++ (if userProductThrows then [] else [DelStep.userProduct])
    let attempted := attempted ++ [DelStep.product]
    if productThrows then ⟨500, false, attempted, completed⟩
    else ⟨200, true, attempted, completed ++ [DelStep.product]⟩

/-- **C7.** On an existing product the handler attempts the image,
compliance, price and user-product deletes in that order before the final
product delete, whatever combination of the four cascade sub-steps
throws; the final delete is always attempted, and only its own throw
turns the response into a 500. -/
theorem deleteProduct_cascade_order
    (imagesThrows complianceThrows priceThrows userProductThrows productThrows : Bool) :
    ((deleteProductHandler true imagesThrows complianceThrows priceThrows
        userProductThrows productThrows).attempted
      = [DelStep.images, DelStep.compliance, DelStep.price, DelStep.userProduct,
          DelStep.product] ∧
      ((deleteProductHandler true imagesThrows complianceThrows priceThrows
          userProductThrows productThrows).status
        = if productThrows then 500 else 200)) := by
  cases productThrows <;> exact ⟨rfl, rfl⟩

/-! ## Order creation (C8, C10)

Source: the mapping-table variant of the `POST /createOrder` route
handler (the legacy variant computes `totalAmount` identically).  The
`InsertOrder` / `InsertOrderItem` / `InsertDeliveryAddress` /
`InsertOrderDeliveryAddressMapping` SQL templates are not in the source
excerpt; they are modelled from the spec as plain row inserts. -/

/-- An order item as supplied in the request body; amounts are request
numbers, modelled as rationals, `none` for an absent field. -/
structure OrderItemReq where
  itemTotal : Option ℚ
  quantity : Option ℚ
  unitPrice : Option ℚ
deriving DecidableEq

/-- JS `item.quantity * item.unitPrice` under `|| 0`: `NaN` (a missing
operand) collapses to 0, and a zero product is 0 either way. -/
def jsQuantityTimesPrice (it : OrderItemReq) : ℚ :=
  match it.quantity, it.unitPrice with
  | some q, some p => q * p
  | _, _ => 0

/-- JS `item.itemTotal || (item.quantity * item.unitPrice) || 0`: a
present non-zero `itemTotal` wins; otherwise the quantity-price product
(0 when either operand is missing). -/
def jsItemTotal (it : OrderItemReq) : ℚ :=
  match it.itemTotal with
  | some t => if t == 0 then jsQuantityTimesPrice it else t
  | none => jsQuantityTimesPrice it

/-- The `calculatedTotal` computation of the createOrder handlers:
`totalAmount || 0` as the base, overridden by the item-sum whenever a
non-empty `orderItems` array is present. -/
def calculatedTotal (totalAmount : Option ℚ)
    (orderItems : Option (List OrderItemReq)) : ℚ :=
  let base := match totalAmount with
    | some t => t
    | none => 0
  match orderItems with
  | some items => if items.isEmpty then base else (items.map jsItemTotal).sum
  | none => base

/-- A delivery/measurement address object from the request body, reduced
to the six fields the handler validates. -/
structure AddressReq where
  fullName : Option String
  phoneNumber : Option String
  addressLine1 : Option String
  city : Option String
  state : Option String
  pincode : Option String
deriving DecidableEq

/-- JS falsiness of an optional string field: absent/null or empty. -/
def jsFalsyStr : Option String → Bool
  | none => true
  | some s => s == ""

/-- A createOrder request body, reduced to the fields the claims need. -/
structure CreateOrderRequest where
  customerId : Option Nat
  totalAmount : Option ℚ
  orderItems : Option (List OrderItemReq)
  deliveryAddressId : Option Nat
  deliveryAddress : Option AddressReq
  measurementAddressId : Option Nat
  measurementAddress : Option AddressReq
deriving DecidableEq

/-- An Order row as inserted by `InsertOrder` (fields the claims need;
`createdBy` is `req.user.userId || customerId`). -/
structure OrderRowDb where
  orderId : Nat
  customerId : Nat
  totalAmount : ℚ
  createdBy : Nat
deriving DecidableEq

/-- An OrderItem row as inserted by `InsertOrderItem`, reduced to the
owning order and the `quantity || 1` / `unitPrice || 0` values. -/
structure OrderItemRowDb where
  orderId : Nat
  quantity : ℚ
  unitPrice : ℚ
deriving DecidableEq

/-- Modelled from the spec: the order-related insert SQL templates are
absent; tables are lists of rows with fresh-id counters. -/
structure OrderDb where
  orders : List OrderRowDb
  orderItems : List OrderItemRowDb
  addresses : List Nat
  mappings : List (Nat × Nat)
  nextOrderId : Nat
  nextAddressId : Nat
deriving DecidableEq

/-- The `handleAddress` helper of the mapping-table createOrder variant:
an existing (truthy) address id only gains a mapping row; an address
object is validated for the six required fields (throwing the quoted
message on a falsy one) and then inserted together with a mapping row. -/
def handleAddress (db : OrderDb) (orderId : Nat) (addressId : Option Nat)
    (addressObject : Option AddressReq) (addressName : String) :
    Except String OrderDb :=
  let aidOpt := match addressId with
    | some aid => if aid = 0 then none else some aid
    | none => none
  match aidOpt with
  | some aid => .ok { db with mappings := db.mappings ++ [(orderId, aid)] }
  | none =>
    match addressObject with
    | none => .ok db
    | some a =>
      if jsFalsyStr a.fullName || jsFalsyStr a.phoneNumber ||
          jsFalsyStr a.addressLine1 || jsFalsyStr a.city ||
          jsFalsyStr a.state || jsFalsyStr a.pincode then
        .error (addressName ++
          " address requires: fullName, phoneNumber, addressLine1, city, state, pincode")
      else
        .ok { db with
          addresses := db.addresses ++ [db.nextAddressId],
          mappings := db.mappings ++ [(orderId, db.nextAddressId)],
          nextAddressId := db.nextAddressId + 1 }

/-- Response of the createOrder route plus the resulting database. -/
structure CreateOrderResult where
  status : Nat
  success : Bool
  db : OrderDb
deriving DecidableEq

/-- The address-handling tail of the mapping-table createOrder route:
delivery address first, then measurement address, each thrown validation
error answered with a 400 that keeps the state already written. -/
def addressPhase (db2 : OrderDb) (orderId : Nat)
    (deliveryAddressId : Option Nat) (deliveryAddress : Option AddressReq)
    (measurementAddressId : Option Nat) (measurementAddress : Option AddressReq) :
    CreateOrderResult :=
  match handleAddress db2 orderId deliveryAddressId deliveryAddress "delivery" with
  | .error _ => ⟨400, false, db2⟩
  | .ok db3 =>
    match handleAddress db3 orderId measurementAddressId measurementAddress
        "measurement" with
    | .error _ => ⟨400, false, db3⟩
    | .ok db4 => ⟨201, true, db4⟩

/-- The mapping-table `POST /createOrder` route: validate customerId
(JS-truthy), compute the total, insert the Order row and the OrderItem
rows, then handle the delivery and measurement addresses — an address
validation failure is answered with a 400 *after* the order and item
inserts, which are not rolled back. -/
def createOrderHandler (db : OrderDb) (userId : Nat)
    (req : CreateOrderRequest) : CreateOrderResult :=
  match req.customerId with
  | none => ⟨400, false, db⟩
  | some cid =>
    if cid = 0 then ⟨400, false, db⟩
    else
      let total := calculatedTotal req.totalAmount req.orderItems
      let orderId := db.nextOrderId
      let db1 := { db with
        orders := db.orders ++ [⟨orderId, cid, total, if userId = 0 then cid else userId⟩],
        nextOrderId := orderId + 1 }
      let db2 := match req.orderItems with
        | some items =>
          if items.isEmpty then db1
          else { db1 with orderItems := db1.orderItems ++ items.map (fun it =>
              ⟨orderId,
                (match it.quantity with
                  | some q => if q == 0 then 1 else q
                  | none => 1),
                it.unitPrice.getD 0⟩) }
        | none => db1
      addressPhase db2 orderId req.deliveryAddressId req.deliveryAddress
        req.measurementAddressId req.measurementAddress

theorem handleAddress_ok_tables {db : OrderDb} {orderId : Nat} {aid : Option Nat}
    {aobj : Option AddressReq} {name : String} {db' : OrderDb}
    (h : handleAddress db orderId aid aobj name = .ok db') :
    db'.orders = db.orders ∧ db'.orderItems = db.orderItems := by
  simp only [handleAddress] at h
  split at h
  · injection h with h'
    subst h'
    exact ⟨rfl, rfl⟩
  · split at h
    · injection h with h'
      subst h'
      exact ⟨rfl, rfl⟩
    · split at h
      · cases h
      · injection h with h'
        subst h'
        exact ⟨rfl, rfl⟩

theorem addressPhase_tables (db2 : OrderDb) (orderId : Nat)
    (deliveryAddressId : Option Nat) (deliveryAddress : Option AddressReq)
    (measurementAddressId : Option Nat) (measurementAddress : Option AddressReq) :
    ((addressPhase db2 orderId deliveryAddressId deliveryAddress
        measurementAddressId measurementAddress).db.orders = db2.orders ∧
      (addressPhase db2 orderId deliveryAddressId deliveryAddress
        measurementAddressId measurementAddress).db.orderItems = db2.orderItems) := by
  unfold addressPhase
  cases h1 : handleAddress db2 orderId deliveryAddressId deliveryAddress "delivery" with
  | error m => exact ⟨rfl, rfl⟩
  | ok db3 =>
    obtain ⟨ho3, hi3⟩ := handleAddress_ok_tables h1
    dsimp only
    cases h2 : handleAddress db3 orderId measurementAddressId measurementAddress
        "measurement" with
    | error m => exact ⟨ho3, hi3⟩
    | ok db4 =>
      obtain ⟨ho4, hi4⟩ := handleAddress_ok_tables h2
      exact ⟨ho4.trans ho3, hi4.trans hi3⟩

theorem createOrderHandler_orders (db : OrderDb) (userId : Nat)
    (req : CreateOrderRequest) (cid : Nat)
    (hcid : req.customerId = some cid) (hcid0 : cid ≠ 0) :
    (createOrderHandler db userId req).db.orders
      = db.orders ++ [⟨db.nextOrderId, cid,
          calculatedTotal req.totalAmount req.orderItems,
          if userId = 0 then cid else userId⟩] := by
  simp only [createOrderHandler, hcid]
  rw [if_neg hcid0]
  cases hoi : req.orderItems with
  | none => exact (addressPhase_tables _ _ _ _ _ _).1
  | some items =>
    dsimp only
    by_cases hie : items.isEmpty = true
    · rw [if_pos hie]
      exact (addressPhase_tables _ _ _ _ _ _).1
    · rw [if_neg hie]
      exact (addressPhase_tables _ _ _ _ _ _).1

/-- **C8 (amended).** The Order row stored by createOrder carries
`totalAmount` computed from the order items (sum of `itemTotal`, falling
back to `quantity × unitPrice`) whenever a non-empty `orderItems` array
is supplied — a caller-supplied `totalAmount` is then ignored; the
caller-supplied value is stored only when `orderItems` is absent or
empty. -/
theorem createOrder_totalAmount
    (db : OrderDb) (userId : Nat) (req : CreateOrderRequest) (cid : Nat)
    (hcid : req.customerId = some cid) (hcid0 : cid ≠ 0) :
    ((∀ items, req.orderItems = some items → items ≠ [] →
        (createOrderHandler db userId req).db.orders
          = db.orders ++ [⟨db.nextOrderId, cid, (items.map jsItemTotal).sum,
              if userId = 0 then cid else userId⟩]) ∧
      (∀ t, req.totalAmount = some t →
        (req.orderItems = none ∨ req.orderItems = some []) →
        (createOrderHandler db userId req).db.orders
          = db.orders ++ [⟨db.nextOrderId, cid, t,
              if userId = 0 then cid else userId⟩])) := by
  constructor
  · intro items hitems hne
    rw [createOrderHandler_orders db userId req cid hcid hcid0]
    have hie : items.isEmpty = false := by
      cases items with
      | nil => exact absurd rfl hne
      | cons x l => rfl
    simp [calculatedTotal, hitems, hie]
  · intro t hta hoi
    rw [createOrderHandler_orders db userId req cid hcid hcid0]
    rcases hoi with h | h <;> simp [calculatedTotal, hta, h]

/-- Witness for C8 (amended): with one item of quantity 2 at unit price
100 and no itemTotal, the stored total is 200; with no items, a supplied
total of 500 is stored. -/
theorem createOrder_totalAmount_witness :
    ((createOrderHandler ⟨[], [], [], [], 1, 1⟩ 9
        ⟨some 7, some 500, some [⟨none, some 2, some 100⟩],
          none, none, none, none⟩).db.orders
      = ([] : List OrderRowDb)
          ++ [⟨1, 7, ([(⟨none, some 2, some 100⟩ : OrderItemReq)].map jsItemTotal).sum,
          if (9 : Nat) = 0 then 7 else 9⟩] ∧
      (createOrderHandler ⟨[], [], [], [], 1, 1⟩ 9
        ⟨some 7, some 500, none, none, none, none, none⟩).db.orders
      = ([] : List OrderRowDb) ++ [⟨1, 7, 500, if (9 : Nat) = 0 then 7 else 9⟩]) :=
  ⟨(createOrder_totalAmount ⟨[], [], [], [], 1, 1⟩ 9
      ⟨some 7, some 500, some [⟨none, some 2, some 100⟩], none, none, none, none⟩ 7
      rfl (by decide)).1 [⟨none, some 2, some 100⟩] rfl (by decide),
    (createOrder_totalAmount ⟨[], [], [], [], 1, 1⟩ 9
      ⟨some 7, some 500, none, none, none, none, none⟩ 7
      rfl (by decide)).2 500 rfl (Or.inl rfl)⟩

/-- **C8, counterexample to the claim as stated.**  The caller supplies
`totalAmount = 500` together with one order item of quantity 2 at unit
price 100: the stored total is the item-derived 200, not the supplied
500 — the supplied value is not the one stored. -/
theorem createOrder_totalAmount_counterexample :
    ((createOrderHandler ⟨[], [], [], [], 1, 1⟩ 9
        ⟨some 7, some 500, some [⟨none, some 2, some 100⟩],
          none, none, none, none⟩).db.orders.map (fun o => o.totalAmount)
      = [200] ∧ (200 : ℚ) ≠ 500) := by
  constructor
  · norm_num [createOrderHandler, addressPhase, handleAddress, calculatedTotal,
      jsItemTotal, jsQuantityTimesPrice]
  · norm_num

theorem handleAddress_badAddress {db : OrderDb} {orderId : Nat}
    {a : AddressReq} {name : String} (hbad : jsFalsyStr a.fullName = true) :
    handleAddress db orderId none (some a) name
      = .error (name ++
          " address requires: fullName, phoneNumber, addressLine1, city, state, pincode") := by
  simp [handleAddress, hbad]

/-- **C10.** In the mapping-table createOrder variant, a delivery-address
object missing a required field yields a 400 with `success = false`, but
the Order row and every OrderItem row inserted earlier in the same
request persist in the resulting state. -/
theorem createOrder_addressFailure_persists
    (db : OrderDb) (userId : Nat) (req : CreateOrderRequest) (cid : Nat)
    (items : List OrderItemReq) (a : AddressReq)
    (hcid : req.customerId = some cid) (hcid0 : cid ≠ 0)
    (hitems : req.orderItems = some items) (hne : items ≠ [])
    (haid : req.deliveryAddressId = none) (haddr : req.deliveryAddress = some a)
    (hbad : jsFalsyStr a.fullName = true) :
    ((createOrderHandler db userId req).status = 400 ∧
      (createOrderHandler db userId req).success = false ∧
      (createOrderHandler db userId req).db.orders
        = db.orders ++ [⟨db.nextOrderId, cid,
            calculatedTotal req.totalAmount req.orderItems,
            if userId = 0 then cid else userId⟩] ∧
      (createOrderHandler db userId req).db.orderItems.length
        = db.orderItems.length + items.length) := by
  have hie : items.isEmpty = false := by
    cases items with
    | nil => exact absurd rfl hne
    | cons x l => rfl
  simp only [createOrderHandler, hcid]
  rw [if_neg hcid0]
  rw [hitems]
  dsimp only
  rw [hie]
  rw [haid, haddr]
  simp only [Bool.false_eq_true, if_false]
  unfold addressPhase
  rw [handleAddress_badAddress hbad]
  refine ⟨rfl, rfl, rfl, ?_⟩
  simp

/-- Witness for C10: a request with one item and a delivery address whose
`fullName` is missing gets a 400 while the order and its item persist. -/
theorem createOrder_addressFailure_persists_witness :
    ((createOrderHandler ⟨[], [], [], [], 1, 1⟩ 9
        ⟨some 7, none, some [⟨some 50, some 1, some 50⟩], none,
          some ⟨none, some "p", some "l", some "c", some "s", some "z"⟩,
          none, none⟩).status = 400 ∧
      (createOrderHandler ⟨[], [], [], [], 1, 1⟩ 9
        ⟨some 7, none, some [⟨some 50, some 1, some 50⟩], none,
          some ⟨none, some "p", some "l", some "c", some "s", some "z"⟩,
          none, none⟩).success = false ∧
      (createOrderHandler ⟨[], [], [], [], 1, 1⟩ 9
        ⟨some 7, none, some [⟨some 50, some 1, some 50⟩], none,
          some ⟨none, some "p", some "l", some "c", some "s", some "z"⟩,
          none, none⟩).db.orders
        = ([] : List OrderRowDb) ++ [⟨1, 7,
            calculatedTotal none (some [⟨some 50, some 1, some 50⟩]),
            if (9 : Nat) = 0 then 7 else 9⟩] ∧
      (createOrderHandler ⟨[], [], [], [], 1, 1⟩ 9
        ⟨some 7, none, some [⟨some 50, some 1, some 50⟩], none,
          some ⟨none, some "p", some "l", some "c", some "s", some "z"⟩,
          none, none⟩).db.orderItems.length
        = List.length ([] : List OrderItemRowDb)
            + ([⟨some 50, some 1, some 50⟩] : List OrderItemReq).length) :=
  createOrder_addressFailure_persists ⟨[], [], [], [], 1, 1⟩ 9
    ⟨some 7, none, some [⟨some 50, some 1, some 50⟩], none,
      some ⟨none, some "p", some "l", some "c", some "s", some "z"⟩, none, none⟩ 7
    [⟨some 50, some 1, some 50⟩] ⟨none, some "p", some "l", some "c", some "s", some "z"⟩
    rfl (by decide) rfl (by decide) rfl rfl (by decide)

end FitFormal
